import Mathlib

/-!
Shallow embedding of the DSP pipeline of src/mini_al.h (format converter,
channel router, sample rate converter, DSP supervisor).

Modelling conventions, used throughout:

* Machine integers (mal_uint32, mal_uint64, mal_int32) are modelled as `Nat`
  (or `Int` where the source value can be negative); every modelled code path
  keeps them in range, so no wraparound arithmetic is needed.
* IEEE-754 single precision (`float`) is modelled as `ℚ`.  Every theorem below
  only evaluates float expressions whose intermediate values are exactly
  representable in binary32 (small integers, halves, eighths, 127.5, ...),
  where rational and float arithmetic coincide.  A C cast `(mal_uint32)x` or
  `(mal_uint8)x` of a non-negative float is truncation, modelled as
  `Int.toNat ⌊x⌋`.
* A C array argument `mal_channel map[MAL_MAX_CHANNELS]` is modelled as a total
  function `Nat → Nat`; slots the C code never reads are irrelevant.
* Pointer-valued callbacks are modelled by a `Bool` field recording whether the
  callback is set (NULL or not), plus - where a claim needs the data flow - an
  explicit stateful source function.
* A C out-parameter struct together with a `mal_result` return value is
  modelled as `Except mal_result state`.
-/

/-! ### Constants and enums (mini_al.h lines 406-731) -/

def MAL_SIMD_ALIGNMENT : Nat := 64

def MAL_MAX_CHANNELS : Nat := 32

def MAL_CHANNEL_NONE : Nat := 0
def MAL_CHANNEL_MONO : Nat := 1
def MAL_CHANNEL_FRONT_LEFT : Nat := 2
def MAL_CHANNEL_FRONT_RIGHT : Nat := 3
def MAL_CHANNEL_FRONT_CENTER : Nat := 4
def MAL_CHANNEL_LFE : Nat := 5

def MAL_SRC_SINC_MIN_WINDOW_WIDTH : Nat := 2
def MAL_SRC_SINC_MAX_WINDOW_WIDTH : Nat := 32
def MAL_SRC_SINC_DEFAULT_WINDOW_WIDTH : Nat := 32
def MAL_SRC_SINC_LOOKUP_TABLE_RESOLUTION : Nat := 8
def MAL_SRC_INPUT_BUFFER_SIZE_IN_SAMPLES : Nat := 256

/-- Result codes (mini_al.h lines 480-483); only the codes reached by the
modelled paths are included. -/
inductive mal_result where
  | MAL_SUCCESS
  | MAL_INVALID_ARGS
  | MAL_INVALID_OPERATION
deriving DecidableEq, Repr

def mal_format_unknown : Nat := 0
def mal_format_u8 : Nat := 1
def mal_format_s16 : Nat := 2
def mal_format_s24 : Nat := 3
def mal_format_s32 : Nat := 4
def mal_format_f32 : Nat := 5

def mal_dither_mode_none : Nat := 0
def mal_dither_mode_rectangle : Nat := 1
def mal_dither_mode_triangle : Nat := 2

def mal_channel_mix_mode_planar_blend : Nat := 0
def mal_channel_mix_mode_simple : Nat := 1

def mal_src_algorithm_sinc : Nat := 0
def mal_src_algorithm_linear : Nat := 1
def mal_src_algorithm_none : Nat := 2

def mal_src_sinc_window_function_hann : Nat := 0
def mal_src_sinc_window_function_rectangular : Nat := 1

/-- mini_al.h:3459 `mal_mix_f32_fast`: x + (y - x)*a. -/
def mal_mix_f32_fast (x y a : ℚ) : ℚ := x + (y - x) * a

/-! ### Channel maps (mini_al.h lines 8615-8684) -/

/-- A C channel map `mal_channel[MAL_MAX_CHANNELS]`, as a total function from
slot index to channel position code. -/
abbrev mal_channel_map := Nat → Nat

/-- mini_al.h:8622 `mal_channel_map_valid`.  Rejects a zero channel count and
MONO occurring in a map of more than one channel; nothing else.  (The C NULL
check is not modelled: maps are values here.) -/
def mal_channel_map_valid (channels : Nat) (channelMap : mal_channel_map) : Bool :=
  if channels = 0 then false
  else if 1 < channels ∧ ∃ i < channels, channelMap i = MAL_CHANNEL_MONO then false
  else true

/-- mini_al.h:8645 `mal_channel_map_equal`.  Returns false when the channel
count is 0 or above MAL_MAX_CHANNELS, otherwise compares element-wise.  (The C
function also returns FALSE when both map pointers are the same address; at
every call site modelled here the two maps are distinct struct fields, so that
branch cannot fire and is not modelled.) -/
def mal_channel_map_equal (channels : Nat) (channelMapA channelMapB : mal_channel_map) : Bool :=
  if channels = 0 ∨ MAL_MAX_CHANNELS < channels then false
  else decide (∀ i < channels, channelMapA i = channelMapB i)

/-- mini_al.h:8664 `mal_channel_map_blank`. -/
def mal_channel_map_blank (channels : Nat) (channelMap : mal_channel_map) : Bool :=
  decide (∀ i < channels, channelMap i = MAL_CHANNEL_NONE)

/-- mini_al.h:8675 `mal_channel_map_contains_channel_position`. -/
def mal_channel_map_contains_channel_position (channels : Nat) (channelMap : mal_channel_map)
    (channelPosition : Nat) : Bool :=
  decide (∃ i < channels, channelMap i = channelPosition)

/-! ### DSP supervisor configuration and pipeline construction
(mini_al.h lines 746-771 and 13309-13498) -/

/-- mini_al.h:746 `mal_dsp_config` (SIMD opt-out flags and the client callback
pointer are not modelled; the callback is always set by the callers the claims
concern). -/
structure mal_dsp_config where
  formatIn : Nat
  channelsIn : Nat
  sampleRateIn : Nat
  channelMapIn : mal_channel_map
  formatOut : Nat
  channelsOut : Nat
  sampleRateOut : Nat
  channelMapOut : mal_channel_map
  channelMixMode : Nat
  ditherMode : Nat
  srcAlgorithm : Nat
  allowDynamicSampleRate : Bool
  neverConsumeEndOfInput : Bool
  sinc_windowFunction : Nat
  sinc_windowWidth : Nat

/-- The five pipeline flags `mal_dsp_init` computes (mini_al.h:13373-13400). -/
structure mal_dsp_flags where
  isSRCRequired : Bool
  isChannelRoutingRequired : Bool
  isPreFormatConversionRequired : Bool
  isPostFormatConversionRequired : Bool
  isPassthrough : Bool
  isChannelRoutingAtStart : Bool
deriving DecidableEq, Repr

/-- mini_al.h:13373-13400: the flag computation at the start of `mal_dsp_init`,
in source order. -/
def mal_dsp_init_flags (c : mal_dsp_config) : mal_dsp_flags :=
  let isSRCRequired : Bool :=
    decide (c.sampleRateIn ≠ c.sampleRateOut) || c.allowDynamicSampleRate
  let isChannelRoutingRequired : Bool :=
    decide (c.channelsIn ≠ c.channelsOut) ||
      !(mal_channel_map_equal c.channelsIn c.channelMapIn c.channelMapOut)
  let isPreFormatConversionRequired : Bool :=
    isSRCRequired || isChannelRoutingRequired
  let isPostFormatConversionRequired : Bool :=
    if isSRCRequired || isChannelRoutingRequired then true
    else decide (c.formatIn ≠ c.formatOut)
  let isPassthrough : Bool :=
    !isPreFormatConversionRequired && !isPostFormatConversionRequired &&
      !isChannelRoutingRequired && !isSRCRequired
  let isChannelRoutingAtStart : Bool := decide (c.channelsOut < c.channelsIn)
  { isSRCRequired := isSRCRequired
    isChannelRoutingRequired := isChannelRoutingRequired
    isPreFormatConversionRequired := isPreFormatConversionRequired
    isPostFormatConversionRequired := isPostFormatConversionRequired
    isPassthrough := isPassthrough
    isChannelRoutingAtStart := isChannelRoutingAtStart }

/-! ### SRC configuration and init (mini_al.h lines 682-741 and 12199-12290) -/

/-- mini_al.h:695 `mal_src_config` (including the embedded
`mal_src_config_sinc`); the deinterleaved read callback pointer is modelled by
the `Bool` field recording whether it is set. -/
structure mal_src_config where
  sampleRateIn : Nat
  sampleRateOut : Nat
  channels : Nat
  algorithm : Nat
  neverConsumeEndOfInput : Bool
  onReadDeinterleavedSet : Bool
  sinc_windowFunction : Nat
  sinc_windowWidth : Nat
deriving DecidableEq, Repr

/-- mini_al.h:12199 `mal_src_init`.  Returns the stored config on success (the
sinc window width is clamped in place at lines 12224-12232: 0 selects the
default, then the value is clamped to [MIN, MAX]); note that the sample rates
are never examined.  The `pSRC == NULL` case is not modelled (the out-struct is
always supplied by the modelled callers). -/
def mal_src_init (config : mal_src_config) : Except mal_result mal_src_config :=
  if config.onReadDeinterleavedSet = false then .error .MAL_INVALID_ARGS
  else if config.channels = 0 ∨ MAL_MAX_CHANNELS < config.channels then .error .MAL_INVALID_ARGS
  else if config.algorithm = mal_src_algorithm_sinc then
    let w0 := config.sinc_windowWidth
    let w1 := if w0 = 0 then MAL_SRC_SINC_DEFAULT_WINDOW_WIDTH else w0
    let w2 := if w1 < MAL_SRC_SINC_MIN_WINDOW_WIDTH then MAL_SRC_SINC_MIN_WINDOW_WIDTH else w1
    let w3 := if MAL_SRC_SINC_MAX_WINDOW_WIDTH < w2 then MAL_SRC_SINC_MAX_WINDOW_WIDTH else w2
    if config.sinc_windowFunction = mal_src_sinc_window_function_hann ∨
        config.sinc_windowFunction = mal_src_sinc_window_function_rectangular then
      .ok { config with sinc_windowWidth := w3 }
    else .error .MAL_INVALID_ARGS
  else .ok config

/-- mini_al.h:12275 `mal_src_set_sample_rate`, acting on the stored config:
returns the result code and the config afterwards.  A zero rate is rejected
before either store happens, so the rates are unchanged in that case.  (The
`pSRC == NULL` case is not modelled.) -/
def mal_src_set_sample_rate (src : mal_src_config) (sampleRateIn sampleRateOut : Nat) :
    mal_result × mal_src_config :=
  if sampleRateIn = 0 ∨ sampleRateOut = 0 then (.MAL_INVALID_ARGS, src)
  else (.MAL_SUCCESS,
    { src with sampleRateIn := sampleRateIn, sampleRateOut := sampleRateOut })

/-! ### Format converter init (mini_al.h lines 604-619 and 11106-11180) -/

/-- mini_al.h:604 `mal_format_converter_config`; the two callback pointers are
modelled by `Bool` set-flags. -/
structure mal_format_converter_config where
  formatIn : Nat
  formatOut : Nat
  channels : Nat
  streamFormatIn : Nat
  streamFormatOut : Nat
  ditherMode : Nat
  onReadSet : Bool
  onReadDeinterleavedSet : Bool
deriving DecidableEq, Repr

/-- mini_al.h:11106 `mal_format_converter_init`.  The config pointer is
modelled as `Option` (`none` = NULL).  After the NULL checks the body only
selects conversion kernels - the switch on `formatOut` has a `default:` branch
(line 11172), so unknown formats, a zero channel count and unset callbacks are
all accepted; the function cannot fail on any non-NULL config.  (The
`pConverter == NULL` case, also MAL_INVALID_ARGS, is not modelled.) -/
def mal_format_converter_init (pConfig : Option mal_format_converter_config) : mal_result :=
  match pConfig with
  | none => .MAL_INVALID_ARGS
  | some _ => .MAL_SUCCESS

/-! ### Channel router init (mini_al.h lines 637-665, 11566-11891) -/

/-- mini_al.h:639 `mal_channel_router_config`. -/
structure mal_channel_router_config where
  channelsIn : Nat
  channelsOut : Nat
  channelMapIn : mal_channel_map
  channelMapOut : mal_channel_map
  mixingMode : Nat
  onReadDeinterleavedSet : Bool

/-- mini_al.h:654 `mal_channel_router` (the SIMD selection flags are not
modelled; the scalar reference kernels are embedded). -/
structure mal_channel_router where
  config : mal_channel_router_config
  isPassthrough : Bool
  isSimpleShuffle : Bool
  shuffleTable : Nat → Nat
  weights : Nat → Nat → ℚ

/-- mini_al.h:11566 `g_malChannelPlaneRatios`: per channel position, the six
plane ratios {left, right, front, back, bottom, top}.  Rows not listed (NONE,
MONO, LFE, the AUX positions) are all zero.  The float constants 0.33f and
0.34f are modelled as 33/100 and 34/100; no theorem below evaluates those
rows. -/
def g_malChannelPlaneRatios (channelPosition : Nat) : List ℚ :=
  match channelPosition with
  | 2 => [1/2, 0, 1/2, 0, 0, 0]
  | 3 => [0, 1/2, 1/2, 0, 0, 0]
  | 4 => [0, 0, 1, 0, 0, 0]
  | 6 => [1/2, 0, 0, 1/2, 0, 0]
  | 7 => [0, 1/2, 0, 1/2, 0, 0]
  | 8 => [1/4, 0, 3/4, 0, 0, 0]
  | 9 => [0, 1/4, 3/4, 0, 0, 0]
  | 10 => [0, 0, 0, 1, 0, 0]
  | 11 => [1, 0, 0, 0, 0, 0]
  | 12 => [0, 1, 0, 0, 0, 0]
  | 13 => [0, 0, 0, 0, 0, 1]
  | 14 => [33/100, 0, 33/100, 0, 0, 34/100]
  | 15 => [0, 0, 1/2, 0, 0, 1/2]
  | 16 => [0, 33/100, 33/100, 0, 0, 34/100]
  | 17 => [33/100, 0, 0, 33/100, 0, 34/100]
  | 18 => [0, 0, 0, 1/2, 0, 1/2]
  | 19 => [0, 33/100, 0, 33/100, 0, 34/100]
  | _ => [0, 0, 0, 0, 0, 0]

/-- mini_al.h:11621 `mal_calculate_channel_position_planar_weight`: the dot
product of the two positions' plane-ratio rows. -/
def mal_calculate_channel_position_planar_weight (channelPositionA channelPositionB : Nat) : ℚ :=
  (g_malChannelPlaneRatios channelPositionA).getD 0 0 * (g_malChannelPlaneRatios channelPositionB).getD 0 0 +
  (g_malChannelPlaneRatios channelPositionA).getD 1 0 * (g_malChannelPlaneRatios channelPositionB).getD 1 0 +
  (g_malChannelPlaneRatios channelPositionA).getD 2 0 * (g_malChannelPlaneRatios channelPositionB).getD 2 0 +
  (g_malChannelPlaneRatios channelPositionA).getD 3 0 * (g_malChannelPlaneRatios channelPositionB).getD 3 0 +
  (g_malChannelPlaneRatios channelPositionA).getD 4 0 * (g_malChannelPlaneRatios channelPositionB).getD 4 0 +
  (g_malChannelPlaneRatios channelPositionA).getD 5 0 * (g_malChannelPlaneRatios channelPositionB).getD 5 0

/-- mini_al.h:11670 `mal_channel_router__is_spatial_channel_position`. -/
def mal_channel_router__is_spatial_channel_position (channelPosition : Nat) : Bool :=
  if channelPosition = MAL_CHANNEL_NONE ∨ channelPosition = MAL_CHANNEL_MONO ∨
      channelPosition = MAL_CHANNEL_LFE then false
  else (List.range 6).any fun i => (g_malChannelPlaneRatios channelPosition).getD i 0 != 0

/-- mini_al.h:11688 `mal_channel_router_init`.  The weight matrix is built by
four sequential passes over the (zero-initialised) `weights` array; each array
cell is written by at most one iteration of each pass, so every pass is
expressed as a function of the previous one:
pass 1 (line 11778) sets 1 for positions present in both maps;
pass 2 (line 11792) fans an input MONO out to every non-NONE/MONO/LFE output;
pass 3 (line 11806) accumulates 1/len onto every output MONO cell;
passes 4a/4b (lines 11838-1888) blend unmapped spatial channels, writing a cell
only if it is still 0, and are skipped entirely in simple mixing mode. -/
def mal_channel_router_init (config : mal_channel_router_config) :
    Except mal_result mal_channel_router :=
  if config.onReadDeinterleavedSet = false then .error .MAL_INVALID_ARGS
  else if mal_channel_map_valid config.channelsIn config.channelMapIn = false then
    .error .MAL_INVALID_ARGS
  else if mal_channel_map_valid config.channelsOut config.channelMapOut = false then
    .error .MAL_INVALID_ARGS
  else
    let chIn := config.channelsIn
    let chOut := config.channelsOut
    let mapIn := config.channelMapIn
    let mapOut := config.channelMapOut
    let isPassthrough : Bool :=
      decide (chIn = chOut) &&
        (mal_channel_map_equal chIn mapIn mapOut ||
         mal_channel_map_blank chIn mapIn || mal_channel_map_blank chOut mapOut)
    let isSimpleShuffle : Bool :=
      !isPassthrough && decide (chIn = chOut) &&
        decide (∀ i < chIn, ∃ j < chOut, mapIn i = mapOut j)
    let shuffleTable : Nat → Nat :=
      if isSimpleShuffle then
        fun i => (((List.range chOut).find? fun j => mapIn i == mapOut j).getD 0)
      else fun _ => 0
    let w1 : Nat → Nat → ℚ := fun i j =>
      if i < chIn ∧ j < chOut ∧ mapIn i = mapOut j then 1 else 0
    let w2 : Nat → Nat → ℚ := fun i j =>
      if i < chIn ∧ j < chOut ∧ mapIn i = MAL_CHANNEL_MONO ∧
          mapOut j ≠ MAL_CHANNEL_NONE ∧ mapOut j ≠ MAL_CHANNEL_MONO ∧
          mapOut j ≠ MAL_CHANNEL_LFE then 1
      else w1 i j
    let len : Nat :=
      ((List.range chIn).filter fun i =>
        decide (mapIn i ≠ MAL_CHANNEL_NONE ∧ mapIn i ≠ MAL_CHANNEL_MONO ∧
          mapIn i ≠ MAL_CHANNEL_LFE)).length
    let w3 : Nat → Nat → ℚ := fun i j =>
      if 0 < len ∧ i < chIn ∧ j < chOut ∧ mapOut j = MAL_CHANNEL_MONO ∧
          mapIn i ≠ MAL_CHANNEL_NONE ∧ mapIn i ≠ MAL_CHANNEL_MONO ∧
          mapIn i ≠ MAL_CHANNEL_LFE then w2 i j + 1 / (len : ℚ)
      else w2 i j
    let w4 : Nat → Nat → ℚ := fun i j =>
      if config.mixingMode ≠ mal_channel_mix_mode_simple ∧ i < chIn ∧ j < chOut ∧
          mal_channel_router__is_spatial_channel_position (mapIn i) = true ∧
          mal_channel_map_contains_channel_position chOut mapOut (mapIn i) = false ∧
          mal_channel_router__is_spatial_channel_position (mapOut j) = true ∧
          w3 i j = 0 then
        (if config.mixingMode = mal_channel_mix_mode_planar_blend then
          mal_calculate_channel_position_planar_weight (mapIn i) (mapOut j)
        else 0)
      else w3 i j
    let w5 : Nat → Nat → ℚ := fun i j =>
      if config.mixingMode ≠ mal_channel_mix_mode_simple ∧ i < chIn ∧ j < chOut ∧
          mal_channel_router__is_spatial_channel_position (mapOut j) = true ∧
          mal_channel_map_contains_channel_position chIn mapIn (mapOut j) = false ∧
          mal_channel_router__is_spatial_channel_position (mapIn i) = true ∧
          w4 i j = 0 then
        (if config.mixingMode = mal_channel_mix_mode_planar_blend then
          mal_calculate_channel_position_planar_weight (mapIn i) (mapOut j)
        else 0)
      else w4 i j
    .ok { config := config
          isPassthrough := isPassthrough
          isSimpleShuffle := isSimpleShuffle
          shuffleTable := shuffleTable
          weights := w5 }

/-! ### DSP init result and stage wiring (mini_al.h lines 13217-13498) -/

/-- mini_al.h:13309 `mal_dsp_init`: the returned result code.  The four stage
inits run in source order (pre format converter, post format converter, SRC,
channel router); the internal callbacks wired in by `mal_dsp_init` are all
non-NULL, and the two format converter inits cannot fail (see
`mal_format_converter_init`), so only the SRC and router inits decide the
result.  The SRC stage is configured with `min(channelsIn, channelsOut)`
channels (line 13458). -/
def mal_dsp_init_result (c : mal_dsp_config) : mal_result :=
  let srcChannels := if c.channelsIn < c.channelsOut then c.channelsIn else c.channelsOut
  let srcConfig : mal_src_config :=
    { sampleRateIn := c.sampleRateIn
      sampleRateOut := c.sampleRateOut
      channels := srcChannels
      algorithm := c.srcAlgorithm
      neverConsumeEndOfInput := c.neverConsumeEndOfInput
      onReadDeinterleavedSet := true
      sinc_windowFunction := c.sinc_windowFunction
      sinc_windowWidth := c.sinc_windowWidth }
  match mal_src_init srcConfig with
  | .error e => e
  | .ok _ =>
    let routerConfig : mal_channel_router_config :=
      { channelsIn := c.channelsIn
        channelMapIn := c.channelMapIn
        channelsOut := c.channelsOut
        channelMapOut := c.channelMapOut
        mixingMode := c.channelMixMode
        onReadDeinterleavedSet := true }
    match mal_channel_router_init routerConfig with
    | .error e => e
    | .ok _ => .MAL_SUCCESS

/-- The stages of the DSP pull graph. -/
inductive DspStage where
  | PreFormatConverter
  | ChannelRouter
  | SRC
  | PostFormatConverter
deriving DecidableEq, Repr

/-- mini_al.h:13269 `mal_dsp__src_on_read_deinterleaved`: the stage the SRC
pulls its input from. -/
def mal_dsp__src_read_source (f : mal_dsp_flags) : DspStage :=
  if f.isChannelRoutingAtStart then .ChannelRouter else .PreFormatConverter

/-- mini_al.h:13287 `mal_dsp__channel_router_on_read_deinterleaved`: the stage
the channel router pulls its input from. -/
def mal_dsp__channel_router_read_source (f : mal_dsp_flags) : DspStage :=
  if f.isChannelRoutingAtStart then .PreFormatConverter
  else if f.isSRCRequired then .SRC
  else .PreFormatConverter

/-- mini_al.h:13248 `mal_dsp__post_format_converter_on_read_deinterleaved`:
the stage the post format converter pulls its input from. -/
def mal_dsp__post_format_converter_read_source (f : mal_dsp_flags) : DspStage :=
  if !f.isChannelRoutingAtStart then .ChannelRouter
  else if f.isSRCRequired then .SRC
  else .ChannelRouter

/-! ### Stateful deinterleaved sources

A client deinterleaved read callback is modelled as a state machine: given the
current state and a requested frame count it returns the new state, the number
of frames delivered (at most the requested count) and the delivered samples as
`channel → frame → value`. -/

abbrev ReadDeinterleavedSource (σ : Type) := σ → Nat → σ × Nat × (Nat → Nat → ℚ)

/-! ### Channel router routing and read (mini_al.h lines 11913-12101) -/

/-- mini_al.h:3598 `mal_split_buffer`: the per-split byte size.  Every modelled
call site passes a `MAL_ALIGN(MAL_SIMD_ALIGNMENT)` stack buffer, so the base
address is already aligned and `unalignedBytes = 0`; `x & ~(alignment-1)` for
the power-of-two alignment is rounding down to a multiple. -/
def mal_split_buffer_splitSize (bufferSize splitCount alignment : Nat) : Nat :=
  if bufferSize = 0 ∨ splitCount = 0 then 0
  else
    let alignment := if alignment = 0 then 1 else alignment
    bufferSize / splitCount / alignment * alignment

/-- mini_al.h:11913 `mal_channel_router__do_routing` (scalar reference path;
the SIMD kernels compute the same sums).  Operates on one chunk: `samplesIn`
holds `frameCount` frames per input channel; the result gives the chunk-local
contents of the output buffers, whose previous contents `outPrev` survive
wherever the C code does not write (the simple-shuffle case writes only the
channels hit by the shuffle table; the general case zero-fills and accumulates
every output channel). -/
def mal_channel_router__do_routing (r : mal_channel_router) (frameCount : Nat)
    (outPrev : Nat → Nat → ℚ) (samplesIn : Nat → Nat → ℚ) : Nat → Nat → ℚ :=
  if r.isSimpleShuffle then
    (List.range r.config.channelsIn).foldl
      (fun acc i => fun c f =>
        if c = r.shuffleTable i ∧ f < frameCount then samplesIn i f else acc c f)
      outPrev
  else
    fun c f =>
      if c < r.config.channelsOut ∧ f < frameCount then
        ((List.range r.config.channelsIn).map fun i => samplesIn i f * r.weights i c).sum
      else outPrev c f

/-- mini_al.h:12036-12056: the while loop of the passthrough branch for
frameCount > 0xFFFFFFFF.  State: source state, output buffer, write offset,
total frames read.  The fuel argument only bounds the iteration count; each
continuing iteration delivers at least one frame, so `frameCount` units of
fuel are never exhausted before the loop condition or a break fires. -/
def routerPassthroughLoop {σ : Type} (r : mal_channel_router)
    (src : ReadDeinterleavedSource σ) (frameCount : Nat) :
    Nat → σ → (Nat → Nat → ℚ) → Nat → Nat → Nat × σ × (Nat → Nat → ℚ)
  | 0, s, buf, _, total => (total, s, buf)
  | fuel+1, s, buf, off, total =>
    if frameCount ≤ total then (total, s, buf)
    else
      let framesToReadRightNow := min (frameCount - total) 0xFFFFFFFF
      let step := src s framesToReadRightNow
      let s2 := step.1
      let framesJustRead := step.2.1
      if framesJustRead = 0 then (total, s2, buf)
      else
        let buf2 : Nat → Nat → ℚ := fun c i =>
          if c < r.config.channelsOut ∧ off ≤ i ∧ i < off + framesJustRead then
            step.2.2 c (i - off)
          else buf c i
        if framesJustRead < framesToReadRightNow then (total + framesJustRead, s2, buf2)
        else routerPassthroughLoop r src frameCount fuel s2 buf2 (off + framesJustRead)
          (total + framesJustRead)

/-- mini_al.h:12073-12098: the while loop of the general (non-passthrough)
path.  Each iteration pulls at most `maxFramesToReadEachIteration` frames into
the split scratch buffer and routes them into the output at the current
per-channel offsets; the output pointers are advanced only for the first
`channelsIn` channels and only while more frames are still needed, exactly as
in the source (line 12090). -/
def routerSlowLoop {σ : Type} (r : mal_channel_router)
    (src : ReadDeinterleavedSource σ) (frameCount maxFramesToReadEachIteration : Nat) :
    Nat → σ → (Nat → Nat → ℚ) → (Nat → Nat) → Nat → Nat × σ × (Nat → Nat → ℚ)
  | 0, s, buf, _, total => (total, s, buf)
  | fuel+1, s, buf, off, total =>
    if frameCount ≤ total then (total, s, buf)
    else
      let framesToReadRightNow := min (frameCount - total) maxFramesToReadEachIteration
      let step := src s framesToReadRightNow
      let s2 := step.1
      let framesJustRead := step.2.1
      if framesJustRead = 0 then (total, s2, buf)
      else
        let chunkPrev : Nat → Nat → ℚ := fun c f => buf c (off c + f)
        let routed := mal_channel_router__do_routing r framesJustRead chunkPrev step.2.2
        let buf2 : Nat → Nat → ℚ := fun c i =>
          if off c ≤ i ∧ i < off c + framesJustRead then routed c (i - off c) else buf c i
        let total2 := total + framesJustRead
        let off2 := if total2 < frameCount then
            (fun c => if c < r.config.channelsIn then off c + framesJustRead else off c)
          else off
        if framesJustRead < framesToReadRightNow then (total2, s2, buf2)
        else routerSlowLoop r src frameCount maxFramesToReadEachIteration fuel s2 buf2 off2 total2

/-- mini_al.h:12021 `mal_channel_router_read_deinterleaved`.  Returns (frames
read, final source state, output buffer contents).  For a passthrough with
frameCount ≤ 0xFFFFFFFF the callback result is returned directly (line 12030).
For a passthrough with a larger frameCount the while loop at lines 12036-12056
runs, but its `totalFramesRead` is discarded: the source has no return
statement after that loop, so control falls through into the path commented
"Slower path for a non-passthrough" (line 12060), which pulls the source again
from output offset 0.  (The NULL-argument early return of 0 is not
modelled.) -/
def mal_channel_router_read_deinterleaved {σ : Type} (r : mal_channel_router)
    (frameCount : Nat) (src : ReadDeinterleavedSource σ) (s0 : σ)
    (buf0 : Nat → Nat → ℚ) : Nat × σ × (Nat → Nat → ℚ) :=
  if r.isPassthrough = true ∧ frameCount ≤ 0xFFFFFFFF then
    let step := src s0 frameCount
    let buf1 : Nat → Nat → ℚ := fun c i =>
      if c < r.config.channelsOut ∧ i < step.2.1 then step.2.2 c i else buf0 c i
    (step.2.1, step.1, buf1)
  else
    let afterPt :=
      if r.isPassthrough then
        let res := routerPassthroughLoop r src frameCount frameCount s0 buf0 0 0
        (res.2.1, res.2.2)
      else (s0, buf0)
    let tempBytes := MAL_MAX_CHANNELS * 256 * 4
    let splitSize := mal_split_buffer_splitSize tempBytes r.config.channelsIn MAL_SIMD_ALIGNMENT
    let maxFramesToReadEachIteration := splitSize / 4
    routerSlowLoop r src frameCount maxFramesToReadEachIteration frameCount
      afterPt.1 afterPt.2 (fun _ => 0) 0

/-! ### Linear sample rate converter (mini_al.h lines 714-723, 12349-12511) -/

/-- The `linear` member of the `mal_src` union (mini_al.h:718-723): a
per-channel input cache of MAL_SRC_INPUT_BUFFER_SIZE_IN_SAMPLES floats, the
fractional input time, and the number of leftover cached frames. -/
structure mal_src_linear_state where
  input : Nat → Nat → ℚ
  timeIn : ℚ
  leftoverFrames : Nat

/-- The zero-initialised linear SRC state (`mal_zero_object` in
`mal_src_init`). -/
def mal_src_linear_state_zero : mal_src_linear_state :=
  { input := fun _ _ => 0, timeIn := 0, leftoverFrames := 0 }

/-- mini_al.h:12463-12477: the scalar output loop of the linear SRC.  Emits
`count` samples; for each one, `iPrevSample = (mal_uint32)floor(t)`,
`alpha = t - iPrevSample`, output `mal_mix_f32_fast(cache[iPrevSample],
cache[iPrevSample+1], alpha)`, then `t += factor`.  (The 4-way unrolled group
loop at lines 12419-12460 computes the same values: in exact arithmetic
`t0 + k*(factor*4) = timeIn + (4k)*factor`.) -/
def linearSamples (cache : Nat → ℚ) (factor : ℚ) : Nat → ℚ → List ℚ
  | 0, _ => []
  | count+1, t =>
    let iPrevSample := (⌊t⌋).toNat
    mal_mix_f32_fast (cache iPrevSample) (cache (iPrevSample + 1)) (t - (⌊t⌋ : ℚ))
      :: linearSamples cache factor count (t + factor)

/-- The result of one iteration of the linear SRC while loop:
frames produced, produced samples per channel, updated state, updated source
state, and whether the loop breaks after this iteration. -/
structure LinearIterResult (σ : Type) where
  produced : Nat
  chunk : Nat → List ℚ
  st : mal_src_linear_state
  srcState : σ
  breaks : Bool

/-- mini_al.h:12364-12507: the body of the linear SRC while loop, for
`framesRemaining = frameCount - totalFramesRead` pending output frames.
Steps, in source order: cap the chunk at 16384 frames; compute how many input
frames to request (`(mal_uint32)tEnd + 1 + 1`, capped at the cache size);
append the client data after the leftover frames; break if fewer than 2 frames
are available; compute the producible output frame count
(`(mal_uint32)(tAvailable/factor)`, forced to at least 1, capped at the chunk);
emit the samples; update timeIn/leftoverFrames and copy the leftover tail to
the cache start; break if the client delivered fewer frames than requested. -/
def linearIter {σ : Type} (cfg : mal_src_config) (src : ReadDeinterleavedSource σ)
    (framesRemaining : Nat) (st : mal_src_linear_state) (s : σ) : LinearIterResult σ :=
  let factor : ℚ := (cfg.sampleRateIn : ℚ) / (cfg.sampleRateOut : ℚ)
  let framesToRead := min framesRemaining 16384
  let tBeg := st.timeIn
  let tEnd := tBeg + (framesToRead : ℚ) * factor
  let framesToReadFromClient0 := (⌊tEnd⌋).toNat + 1 + 1
  let framesToReadFromClient :=
    if MAL_SRC_INPUT_BUFFER_SIZE_IN_SAMPLES ≤ framesToReadFromClient0 then
      MAL_SRC_INPUT_BUFFER_SIZE_IN_SAMPLES
    else framesToReadFromClient0
  let step :=
    if st.leftoverFrames < framesToReadFromClient then
      src s (framesToReadFromClient - st.leftoverFrames)
    else (s, 0, fun _ _ => 0)
  let s2 := step.1
  let cache : Nat → Nat → ℚ := fun c i =>
    if st.leftoverFrames ≤ i ∧ i < st.leftoverFrames + step.2.1 then
      step.2.2 c (i - st.leftoverFrames)
    else st.input c i
  let framesReadFromClient := step.2.1 + st.leftoverFrames
  if framesReadFromClient < 2 then
    { produced := 0, chunk := fun _ => [], st := { st with input := cache }, srcState := s2,
      breaks := true }
  else
    let tAvailable : ℚ := (framesReadFromClient : ℚ) - tBeg - 1
    let maxOut0 := (⌊tAvailable / factor⌋).toNat
    let maxOut1 := if maxOut0 = 0 then 1 else maxOut0
    let maxOutputFramesToRead := if framesToRead < maxOut1 then framesToRead else maxOut1
    let chunk : Nat → List ℚ := fun c =>
      if c < cfg.channels then linearSamples (cache c) factor maxOutputFramesToRead st.timeIn
      else []
    let tNext := st.timeIn + (maxOutputFramesToRead : ℚ) * factor
    let iNextFrame := (⌊tNext⌋).toNat
    let leftover2 := framesReadFromClient - iNextFrame
    let timeIn2 := tNext - (iNextFrame : ℚ)
    let cache2 : Nat → Nat → ℚ := fun c i =>
      if i < leftover2 then cache c (framesReadFromClient - leftover2 + i) else cache c i
    { produced := maxOutputFramesToRead, chunk := chunk,
      st := { input := cache2, timeIn := timeIn2, leftoverFrames := leftover2 },
      srcState := s2,
      breaks := decide (framesReadFromClient < framesToReadFromClient) }

/-- mini_al.h:12364 the linear SRC while loop, accumulating output per channel.
Fuel only bounds the iteration count; each continuing iteration produces at
least one output frame, so `frameCount` units are never exhausted first. -/
def linearLoop {σ : Type} (cfg : mal_src_config) (src : ReadDeinterleavedSource σ)
    (frameCount : Nat) :
    Nat → mal_src_linear_state → σ → Nat → (Nat → List ℚ) →
      Nat × (Nat → List ℚ) × mal_src_linear_state × σ
  | 0, st, s, total, out => (total, out, st, s)
  | fuel+1, st, s, total, out =>
    if frameCount ≤ total then (total, out, st, s)
    else
      let r := linearIter cfg src (frameCount - total) st s
      let out2 : Nat → List ℚ := fun c => out c ++ r.chunk c
      if r.breaks then (total + r.produced, out2, r.st, r.srcState)
      else linearLoop cfg src frameCount fuel r.st r.srcState (total + r.produced) out2

/-- mini_al.h:12349 `mal_src_read_deinterleaved__linear`.  Returns (frames
read, output samples per channel, final linear state, final source state). -/
def mal_src_read_deinterleaved__linear {σ : Type} (cfg : mal_src_config)
    (st : mal_src_linear_state) (src : ReadDeinterleavedSource σ) (s0 : σ)
    (frameCount : Nat) : Nat × (Nat → List ℚ) × mal_src_linear_state × σ :=
  linearLoop cfg src frameCount frameCount st s0 0 (fun _ => [])

/-! ### PCM f32 → u8 conversion (mini_al.h lines 3556-3578, 10026-10048) -/

/-- mini_al.h:3568 `mal_dither_f32`.  For the rectangle and triangle modes the
C draws noise from the global LCG within [ditherMin, ditherMax]; the drawn
value is modelled by the explicit parameter `rand`.  For mode none the
function returns 0 regardless. -/
def mal_dither_f32 (ditherMode : Nat) (ditherMin ditherMax rand : ℚ) : ℚ :=
  if ditherMode = mal_dither_mode_rectangle then max ditherMin (min rand ditherMax)
  else if ditherMode = mal_dither_mode_triangle then max ditherMin (min rand ditherMax)
  else 0

/-- mini_al.h:10026 `mal_pcm_f32_to_u8__reference`, per sample: optional
dither, clip to [-1, 1], shift to [0, 2], scale by 127.5f, then the
`(mal_uint8)` cast truncates the non-negative float (`Int.toNat ⌊x⌋`). -/
def mal_pcm_f32_to_u8_sample (ditherMode : Nat) (rand : ℚ) (sample : ℚ) : Nat :=
  let ditherMin : ℚ := if ditherMode ≠ mal_dither_mode_none then -(1 / 128) else 0
  let ditherMax : ℚ := if ditherMode ≠ mal_dither_mode_none then 1 / 127 else 0
  let x := sample + mal_dither_f32 ditherMode ditherMin ditherMax rand
  let x := if x < -1 then -1 else if 1 < x then 1 else x
  let x := x + 1
  let x := x * (255 / 2)
  (⌊x⌋).toNat

/-- The conversion loop of mini_al.h:10039: `i` is the loop index and `rand i`
the LCG draw for sample i (unused in mode none). -/
def mal_pcm_f32_to_u8_loop (ditherMode : Nat) (rand : Nat → ℚ) : Nat → List ℚ → List Nat
  | _, [] => []
  | i, x :: rest =>
    mal_pcm_f32_to_u8_sample ditherMode (rand i) x ::
      mal_pcm_f32_to_u8_loop ditherMode rand (i + 1) rest

/-- mini_al.h:10026 `mal_pcm_f32_to_u8__reference` over a buffer. -/
def mal_pcm_f32_to_u8__reference (ditherMode : Nat) (rand : Nat → ℚ) (src : List ℚ) :
    List Nat :=
  mal_pcm_f32_to_u8_loop ditherMode rand 0 src

/-! ### Sinc SRC lookup table indexing (mini_al.h lines 726-732, 12579-12597,
12777-12779, 12939-12949) -/

/-- mini_al.h:731: the sinc lookup table is declared with
`MAL_SRC_SINC_MAX_WINDOW_WIDTH*1 * MAL_SRC_SINC_LOOKUP_TABLE_RESOLUTION`
float entries (= 256, valid indices 0..255).  The comment on that line says
"The +1 is used to avoid the need for an overflow check", but the size
expression multiplies by 1 instead of adding 1. -/
def mal_src_sinc_table_count : Nat :=
  MAL_SRC_SINC_MAX_WINDOW_WIDTH * 1 * MAL_SRC_SINC_LOOKUP_TABLE_RESOLUTION

/-- mini_al.h:12579 `mal_src_sinc__interpolation_factor`: the low table index
`ixabs = (mal_int32)(fabs(x) * RESOLUTION)` (truncation of a non-negative
float).  With MAL_USE_SINC_TABLE_INTERPOLATION defined (line 12563) the
function reads `table[ixabs]` and `table[ixabs + 1]`. -/
def mal_src_sinc__interpolation_factor_ixabs (x : ℚ) : Nat :=
  (⌊|x| * (MAL_SRC_SINC_LOOKUP_TABLE_RESOLUTION : ℚ)⌋).toNat

/-- mini_al.h:12940-12945: in the scalar sinc kernel the lookup argument for
window tap `iWindow` is `t - w`, where `t = timeIn - (mal_uint32)floor(timeIn)`
(line 12818-12819, 12940) and `w = iWindowF[iWindow] = iWindow - windowWidth`
(line 12778). -/
def mal_src_sinc_tap_argument (timeIn : ℚ) (windowWidth iWindow : Nat) : ℚ :=
  (timeIn - ((⌊timeIn⌋).toNat : ℚ)) - ((iWindow : ℚ) - (windowWidth : ℚ))

/-! ### Concrete fixtures used by the claims -/

/-- A Microsoft-default stereo map: FRONT_LEFT, FRONT_RIGHT. -/
def stereoMap : mal_channel_map :=
  fun i => [MAL_CHANNEL_FRONT_LEFT, MAL_CHANNEL_FRONT_RIGHT].getD i MAL_CHANNEL_NONE

/-- A DSP config that is a complete passthrough: s16 stereo 48 kHz on both
sides, identical maps, no dynamic sample rate. -/
def dspPassthroughCfg : mal_dsp_config :=
  { formatIn := mal_format_s16, channelsIn := 2, sampleRateIn := 48000,
    channelMapIn := stereoMap,
    formatOut := mal_format_s16, channelsOut := 2, sampleRateOut := 48000,
    channelMapOut := stereoMap,
    channelMixMode := mal_channel_mix_mode_planar_blend,
    ditherMode := mal_dither_mode_none,
    srcAlgorithm := mal_src_algorithm_linear,
    allowDynamicSampleRate := false, neverConsumeEndOfInput := false,
    sinc_windowFunction := mal_src_sinc_window_function_hann, sinc_windowWidth := 0 }

/-- A 7.1 → mono downmix config (channel reduction, so the router is placed
before the SRC). -/
def dspDownmixCfg : mal_dsp_config :=
  { formatIn := mal_format_f32, channelsIn := 8, sampleRateIn := 96000,
    channelMapIn := fun i =>
      [MAL_CHANNEL_FRONT_LEFT, MAL_CHANNEL_FRONT_RIGHT, MAL_CHANNEL_FRONT_CENTER,
        MAL_CHANNEL_LFE, 6, 7, 11, 12].getD i MAL_CHANNEL_NONE,
    formatOut := mal_format_s16, channelsOut := 1, sampleRateOut := 44100,
    channelMapOut := fun i => [MAL_CHANNEL_MONO].getD i MAL_CHANNEL_NONE,
    channelMixMode := mal_channel_mix_mode_planar_blend,
    ditherMode := mal_dither_mode_none,
    srcAlgorithm := mal_src_algorithm_linear,
    allowDynamicSampleRate := false, neverConsumeEndOfInput := false,
    sinc_windowFunction := mal_src_sinc_window_function_hann, sinc_windowWidth := 0 }

/-- An SRC config with a zero input sample rate (and otherwise valid fields). -/
def srcZeroRateCfg : mal_src_config :=
  { sampleRateIn := 0, sampleRateOut := 48000, channels := 1,
    algorithm := mal_src_algorithm_linear, neverConsumeEndOfInput := false,
    onReadDeinterleavedSet := true,
    sinc_windowFunction := mal_src_sinc_window_function_hann, sinc_windowWidth := 0 }

/-- A sinc SRC config with windowWidth = 33, outside [2, 32]. -/
def sincWidth33Cfg : mal_src_config :=
  { sampleRateIn := 44100, sampleRateOut := 48000, channels := 1,
    algorithm := mal_src_algorithm_sinc, neverConsumeEndOfInput := false,
    onReadDeinterleavedSet := true,
    sinc_windowFunction := mal_src_sinc_window_function_hann, sinc_windowWidth := 33 }

/-- A format converter config with an unknown format code, zero channels and
neither read callback set. -/
def fmtConvInvalidCfg : mal_format_converter_config :=
  { formatIn := 99, formatOut := 99, channels := 0, streamFormatIn := 0,
    streamFormatOut := 0, ditherMode := mal_dither_mode_none,
    onReadSet := false, onReadDeinterleavedSet := false }

/-- A 2-channel map with a duplicated position: FRONT_LEFT, FRONT_LEFT. -/
def dupMapIn : mal_channel_map :=
  fun i => [MAL_CHANNEL_FRONT_LEFT, MAL_CHANNEL_FRONT_LEFT].getD i MAL_CHANNEL_NONE

/-- A router config whose input map contains FRONT_LEFT twice. -/
def dupRouterCfg : mal_channel_router_config :=
  { channelsIn := 2, channelsOut := 2, channelMapIn := dupMapIn,
    channelMapOut := stereoMap,
    mixingMode := mal_channel_mix_mode_simple, onReadDeinterleavedSet := true }

/-- A 1-channel identity router config: map [MONO] on both sides, simple
mixing. -/
def routerMonoCfg : mal_channel_router_config :=
  { channelsIn := 1, channelsOut := 1,
    channelMapIn := fun i => [MAL_CHANNEL_MONO].getD i MAL_CHANNEL_NONE,
    channelMapOut := fun i => [MAL_CHANNEL_MONO].getD i MAL_CHANNEL_NONE,
    mixingMode := mal_channel_mix_mode_simple, onReadDeinterleavedSet := true }

/-- The router built by `mal_channel_router_init` from `routerMonoCfg` (the
init succeeds; the fallback branch is never taken). -/
def routerMono : mal_channel_router :=
  match mal_channel_router_init routerMonoCfg with
  | .ok r => r
  | .error _ =>
    { config := routerMonoCfg, isPassthrough := false, isSimpleShuffle := false,
      shuffleTable := fun _ => 0, weights := fun _ _ => 0 }

/-- A source that delivers exactly one frame (value 5) on its first call and
reports end of input afterwards; the state counts delivered frames. -/
def oneFrameSource : ReadDeinterleavedSource Nat := fun s n =>
  if s = 0 ∧ 1 ≤ n then (1, 1, fun _ _ => 5) else (s, 0, fun _ _ => 0)

/-- A mono source that supplies exactly the 8 samples 0, 1, ..., 7 and then
reports end of input; the state counts consumed frames. -/
def rampSource8 : ReadDeinterleavedSource Nat := fun consumed n =>
  let give := min n (8 - consumed)
  (consumed + give, give, fun _ f => ((consumed + f : Nat) : ℚ))

/-- The 48000 → 24000 mono linear SRC config of the claim. -/
def linearCfg48to24 : mal_src_config :=
  { sampleRateIn := 48000, sampleRateOut := 24000, channels := 1,
    algorithm := mal_src_algorithm_linear, neverConsumeEndOfInput := false,
    onReadDeinterleavedSet := true,
    sinc_windowFunction := mal_src_sinc_window_function_hann, sinc_windowWidth := 0 }

/-! ### Claim C1 -/

theorem mal_src_init_channels_err (cfg : mal_src_config)
    (hcb : cfg.onReadDeinterleavedSet = true)
    (hbad : cfg.channels = 0 ∨ MAL_MAX_CHANNELS < cfg.channels) :
    mal_src_init cfg = .error .MAL_INVALID_ARGS := by
  unfold mal_src_init
  simp [hcb, hbad]

theorem mal_dsp_init_result_channels_err (c : mal_dsp_config)
    (hbad : (if c.channelsIn < c.channelsOut then c.channelsIn else c.channelsOut) = 0 ∨
      MAL_MAX_CHANNELS < (if c.channelsIn < c.channelsOut then c.channelsIn else c.channelsOut)) :
    mal_dsp_init_result c = .MAL_INVALID_ARGS := by
  unfold mal_dsp_init_result mal_src_init
  simp [hbad]

/-- C1: after a successful `mal_dsp_init`, the passthrough flag is true iff the
formats agree, the channel counts agree, the channel maps agree element-wise,
the sample rates agree, and dynamic sample rate is not enabled. -/
theorem c1_dsp_passthrough_iff (c : mal_dsp_config)
    (h : mal_dsp_init_result c = mal_result.MAL_SUCCESS) :
    (mal_dsp_init_flags c).isPassthrough = true ↔
      (c.formatIn = c.formatOut ∧ c.channelsIn = c.channelsOut ∧
        (∀ i < c.channelsIn, c.channelMapIn i = c.channelMapOut i) ∧
        c.sampleRateIn = c.sampleRateOut ∧ c.allowDynamicSampleRate = false) := by
  constructor
  · intro hp
    unfold mal_dsp_init_flags at hp
    simp only [Bool.and_eq_true, Bool.not_eq_true', Bool.or_eq_false_iff,
      decide_eq_false_iff_not, not_not, Bool.not_eq_false'] at hp
    obtain ⟨⟨⟨hpre, hpost⟩, hrout⟩, hsrc⟩ := hp
    obtain ⟨hrate, hdyn⟩ := hsrc
    obtain ⟨hch, hmeq⟩ := hrout
    have hmap : ∀ i < c.channelsIn, c.channelMapIn i = c.channelMapOut i := by
      unfold mal_channel_map_equal at hmeq
      split at hmeq
      · exact absurd hmeq (by simp)
      · simpa using hmeq
    have hfmt : c.formatIn = c.formatOut := by
      rw [if_neg] at hpost
      · simpa using hpost
      · simp [hrate, hdyn, hch, hmeq, hch ▸ hmeq]
    exact ⟨hfmt, hch, hmap, hrate, hdyn⟩
  · rintro ⟨hfmt, hch, hmap, hrate, hdyn⟩
    have hchok : ¬(c.channelsIn = 0 ∨ MAL_MAX_CHANNELS < c.channelsIn) := by
      intro hbad
      have hbad2 : (if c.channelsIn < c.channelsOut then c.channelsIn else c.channelsOut) = 0 ∨
          MAL_MAX_CHANNELS <
            (if c.channelsIn < c.channelsOut then c.channelsIn else c.channelsOut) := by
        rw [← hch]
        simpa using hbad
      rw [mal_dsp_init_result_channels_err c hbad2] at h
      exact absurd h (by simp)
    have hmeq : mal_channel_map_equal c.channelsIn c.channelMapIn c.channelMapOut = true := by
      unfold mal_channel_map_equal
      rw [if_neg hchok]
      exact decide_eq_true hmap
    unfold mal_dsp_init_flags
    simp [hrate, hdyn, hch, hmeq, hch ▸ hmeq, hfmt]

/-- C1 witness: the concrete passthrough config initialises successfully and
satisfies the equivalence. -/
theorem c1_dsp_passthrough_iff_witness :
    mal_dsp_init_result dspPassthroughCfg = mal_result.MAL_SUCCESS ∧
    ((mal_dsp_init_flags dspPassthroughCfg).isPassthrough = true ↔
      (dspPassthroughCfg.formatIn = dspPassthroughCfg.formatOut ∧
        dspPassthroughCfg.channelsIn = dspPassthroughCfg.channelsOut ∧
        (∀ i < dspPassthroughCfg.channelsIn,
          dspPassthroughCfg.channelMapIn i = dspPassthroughCfg.channelMapOut i) ∧
        dspPassthroughCfg.sampleRateIn = dspPassthroughCfg.sampleRateOut ∧
        dspPassthroughCfg.allowDynamicSampleRate = false)) :=
  ⟨by decide, c1_dsp_passthrough_iff dspPassthroughCfg (by decide)⟩

/-! ### Claim C2 -/

/-- C2: the supervisor reorders the pipeline for channel reduction.  When
channelsOut < channelsIn the SRC pulls from the channel router and the router
pulls from the pre format converter (router before SRC); otherwise the SRC
pulls from the pre format converter and the router pulls from the SRC whenever
the SRC stage is required (router after SRC). -/
theorem c2_dsp_stage_order (c : mal_dsp_config) :
    mal_dsp__src_read_source (mal_dsp_init_flags c) =
      (if c.channelsOut < c.channelsIn then DspStage.ChannelRouter
        else DspStage.PreFormatConverter) ∧
    mal_dsp__channel_router_read_source (mal_dsp_init_flags c) =
      (if c.channelsOut < c.channelsIn then DspStage.PreFormatConverter
        else if (mal_dsp_init_flags c).isSRCRequired = true then DspStage.SRC
        else DspStage.PreFormatConverter) := by
  unfold mal_dsp__src_read_source mal_dsp__channel_router_read_source mal_dsp_init_flags
  by_cases hlt : c.channelsOut < c.channelsIn
  · simp [hlt]
  · simp [hlt]

/-! ### Claim C5 -/

/-- C5 counterexample: with dither mode none, converting the f32 sample 0.0 to
u8 yields 127, not 128 as claimed: (0 + 1) * 127.5 = 127.5 and the
(mal_uint8) cast truncates. -/
theorem c5_counterexample :
    mal_pcm_f32_to_u8__reference mal_dither_mode_none (fun _ => 0) [0] = [127] ∧
      (127 : Nat) ≠ 128 := by
  refine ⟨?_, by decide⟩
  simp only [mal_pcm_f32_to_u8__reference, mal_pcm_f32_to_u8_loop,
    mal_pcm_f32_to_u8_sample, mal_dither_f32, mal_dither_mode_none,
    mal_dither_mode_rectangle, mal_dither_mode_triangle]
  norm_num
  decide

/-- C5 (amended): with dither mode none the reference f32 → u8 conversion maps
+1.0 to 255, -1.0 to 0, and 0.0 to 127 (truncation of 127.5, not rounding to
128). -/
theorem c5_f32_to_u8_values :
    mal_pcm_f32_to_u8__reference mal_dither_mode_none (fun _ => 0) [1, -1, 0] =
      [255, 0, 127] := by
  simp only [mal_pcm_f32_to_u8__reference, mal_pcm_f32_to_u8_loop,
    mal_pcm_f32_to_u8_sample, mal_dither_f32, mal_dither_mode_none,
    mal_dither_mode_rectangle, mal_dither_mode_triangle]
  norm_num
  decide

/-! ### Claim C6 -/

/-- C6 counterexample: a config with sampleRateIn = 0 is accepted by
`mal_src_init` (the claim says a zero rate is rejected at init). -/
theorem c6_counterexample :
    srcZeroRateCfg.sampleRateIn = 0 ∧ mal_src_init srcZeroRateCfg = .ok srcZeroRateCfg :=
  ⟨rfl, rfl⟩

/-- C6 (amended): `mal_src_init` never examines the sample rates - any config
with the callback set, a channel count in [1, MAL_MAX_CHANNELS] and (for the
sinc algorithm) a known window function initialises successfully, zero rates
included; `mal_src_set_sample_rate` with a zero input or output rate returns
MAL_INVALID_ARGS and leaves the stored rates unchanged. -/
theorem c6_src_zero_rate_handling (cfg : mal_src_config)
    (hcb : cfg.onReadDeinterleavedSet = true)
    (hch1 : 1 ≤ cfg.channels) (hch2 : cfg.channels ≤ MAL_MAX_CHANNELS)
    (hwf : cfg.algorithm = mal_src_algorithm_sinc → cfg.sinc_windowFunction ≤ 1) :
    (∃ stored, mal_src_init cfg = .ok stored) ∧
    (∀ rateIn rateOut, rateIn = 0 ∨ rateOut = 0 →
      mal_src_set_sample_rate cfg rateIn rateOut = (.MAL_INVALID_ARGS, cfg)) := by
  constructor
  · unfold mal_src_init
    rw [if_neg (by simp [hcb]), if_neg (by omega)]
    by_cases halg : cfg.algorithm = mal_src_algorithm_sinc
    · rw [if_pos halg, if_pos]
      · exact ⟨_, rfl⟩
      · have hle := hwf halg
        unfold mal_src_sinc_window_function_hann mal_src_sinc_window_function_rectangular
        omega
    · rw [if_neg halg]
      exact ⟨_, rfl⟩
  · intro rateIn rateOut hz
    unfold mal_src_set_sample_rate
    rw [if_pos hz]

/-- C6 witness: the amended statement applied to the concrete zero-rate
config. -/
theorem c6_src_zero_rate_handling_witness :
    srcZeroRateCfg.onReadDeinterleavedSet = true ∧ 1 ≤ srcZeroRateCfg.channels ∧
    srcZeroRateCfg.channels ≤ MAL_MAX_CHANNELS ∧
    ((∃ stored, mal_src_init srcZeroRateCfg = .ok stored) ∧
      (∀ rateIn rateOut, rateIn = 0 ∨ rateOut = 0 →
        mal_src_set_sample_rate srcZeroRateCfg rateIn rateOut =
          (.MAL_INVALID_ARGS, srcZeroRateCfg))) :=
  ⟨by decide, by decide, by decide,
    c6_src_zero_rate_handling srcZeroRateCfg (by decide) (by decide) (by decide)
      (by decide)⟩

/-! ### Claim C7 -/

/-- C7 counterexample: a sinc config with windowWidth = 33 (outside [2, 32])
does not fail: `mal_src_init` succeeds with the width clamped to 32. -/
theorem c7_counterexample :
    mal_src_init sincWidth33Cfg = .ok { sincWidth33Cfg with sinc_windowWidth := 32 } :=
  rfl

/-- C7 (amended): for the sinc algorithm an out-of-range window width is not
rejected - `mal_src_init` clamps it into
[MAL_SRC_SINC_MIN_WINDOW_WIDTH, MAL_SRC_SINC_MAX_WINDOW_WIDTH] (with 0
selecting the default width) and succeeds whenever the callback is set, the
channel count is in range and the window function is known. -/
theorem c7_sinc_window_width_clamped (cfg : mal_src_config)
    (halg : cfg.algorithm = mal_src_algorithm_sinc)
    (hcb : cfg.onReadDeinterleavedSet = true)
    (hch1 : 1 ≤ cfg.channels) (hch2 : cfg.channels ≤ MAL_MAX_CHANNELS)
    (hwf : cfg.sinc_windowFunction ≤ 1) :
    ∃ stored, mal_src_init cfg = .ok stored ∧
      MAL_SRC_SINC_MIN_WINDOW_WIDTH ≤ stored.sinc_windowWidth ∧
      stored.sinc_windowWidth ≤ MAL_SRC_SINC_MAX_WINDOW_WIDTH ∧
      (cfg.sinc_windowWidth = 0 →
        stored.sinc_windowWidth = MAL_SRC_SINC_DEFAULT_WINDOW_WIDTH) ∧
      (MAL_SRC_SINC_MIN_WINDOW_WIDTH ≤ cfg.sinc_windowWidth ∧
          cfg.sinc_windowWidth ≤ MAL_SRC_SINC_MAX_WINDOW_WIDTH →
        stored.sinc_windowWidth = cfg.sinc_windowWidth) := by
  unfold mal_src_init
  rw [if_neg (by simp [hcb]), if_neg (by omega), if_pos halg, if_pos]
  · refine ⟨_, rfl, ?_, ?_, ?_, ?_⟩ <;>
    · simp only [MAL_SRC_SINC_MIN_WINDOW_WIDTH, MAL_SRC_SINC_MAX_WINDOW_WIDTH,
        MAL_SRC_SINC_DEFAULT_WINDOW_WIDTH]
      split_ifs <;> omega
  · unfold mal_src_sinc_window_function_hann mal_src_sinc_window_function_rectangular
    omega

/-- C7 witness: the amended statement applied to the windowWidth = 33
config. -/
theorem c7_sinc_window_width_clamped_witness :
    sincWidth33Cfg.algorithm = mal_src_algorithm_sinc ∧
    sincWidth33Cfg.sinc_windowWidth = 33 ∧
    (∃ stored, mal_src_init sincWidth33Cfg = .ok stored ∧
      MAL_SRC_SINC_MIN_WINDOW_WIDTH ≤ stored.sinc_windowWidth ∧
      stored.sinc_windowWidth ≤ MAL_SRC_SINC_MAX_WINDOW_WIDTH ∧
      (sincWidth33Cfg.sinc_windowWidth = 0 →
        stored.sinc_windowWidth = MAL_SRC_SINC_DEFAULT_WINDOW_WIDTH) ∧
      (MAL_SRC_SINC_MIN_WINDOW_WIDTH ≤ sincWidth33Cfg.sinc_windowWidth ∧
          sincWidth33Cfg.sinc_windowWidth ≤ MAL_SRC_SINC_MAX_WINDOW_WIDTH →
        stored.sinc_windowWidth = sincWidth33Cfg.sinc_windowWidth)) :=
  ⟨by decide, by decide,
    c7_sinc_window_width_clamped sincWidth33Cfg (by decide) (by decide) (by decide)
      (by decide) (by decide)⟩

/-! ### Claim C8 -/

/-- C8 counterexample: a config with an unknown format code (99), zero
channels and neither callback set is accepted by `mal_format_converter_init`
(the claim says such configs fail at init). -/
theorem c8_counterexample :
    fmtConvInvalidCfg.channels = 0 ∧ fmtConvInvalidCfg.onReadSet = false ∧
    fmtConvInvalidCfg.onReadDeinterleavedSet = false ∧
    mal_format_converter_init (some fmtConvInvalidCfg) = .MAL_SUCCESS := by
  decide

/-- C8 (amended): `mal_format_converter_init` validates nothing about the
config - it fails only on NULL pointer arguments and returns MAL_SUCCESS for
every config, unknown formats, zero channels and unset callbacks included. -/
theorem c8_format_converter_init_no_validation :
    (∀ cfg, mal_format_converter_init (some cfg) = .MAL_SUCCESS) ∧
    mal_format_converter_init none = .MAL_INVALID_ARGS :=
  ⟨fun _ => rfl, rfl⟩

/-! ### Claim C9 -/

/-- C9 counterexample: a channel map containing FRONT_LEFT twice passes
`mal_channel_map_valid`, and `mal_channel_router_init` accepts a config with
that input map (the claim says duplicate positions are rejected with
MAL_INVALID_ARGS). -/
theorem c9_counterexample :
    mal_channel_map_valid 2 dupMapIn = true ∧ dupMapIn 0 = dupMapIn 1 ∧
    ∃ r, mal_channel_router_init dupRouterCfg = .ok r :=
  ⟨by decide, by decide, ⟨_, rfl⟩⟩

/-- C9 (amended): channel-map validation rejects only a zero channel count and
MONO occurring in a map of more than one channel; duplicate positions are not
checked, so `mal_channel_router_init` accepts every config meeting those two
conditions (with the callback set), duplicates included. -/
theorem c9_router_init_accepts_duplicates (cfg : mal_channel_router_config)
    (hcb : cfg.onReadDeinterleavedSet = true)
    (hin0 : cfg.channelsIn ≠ 0) (hout0 : cfg.channelsOut ≠ 0)
    (hinMono : 1 < cfg.channelsIn → ∀ i < cfg.channelsIn,
      cfg.channelMapIn i ≠ MAL_CHANNEL_MONO)
    (houtMono : 1 < cfg.channelsOut → ∀ i < cfg.channelsOut,
      cfg.channelMapOut i ≠ MAL_CHANNEL_MONO) :
    ∃ r, mal_channel_router_init cfg = .ok r := by
  have hvalidIn : mal_channel_map_valid cfg.channelsIn cfg.channelMapIn = true := by
    unfold mal_channel_map_valid
    rw [if_neg hin0, if_neg]
    rintro ⟨h1, i, hi, hmono⟩
    exact hinMono h1 i hi hmono
  have hvalidOut : mal_channel_map_valid cfg.channelsOut cfg.channelMapOut = true := by
    unfold mal_channel_map_valid
    rw [if_neg hout0, if_neg]
    rintro ⟨h1, i, hi, hmono⟩
    exact houtMono h1 i hi hmono
  unfold mal_channel_router_init
  rw [if_neg (by simp [hcb]), if_neg (by simp [hvalidIn]), if_neg (by simp [hvalidOut])]
  exact ⟨_, rfl⟩

/-- C9 witness: the amended statement applied to the duplicate-map config. -/
theorem c9_router_init_accepts_duplicates_witness :
    dupRouterCfg.onReadDeinterleavedSet = true ∧ dupRouterCfg.channelsIn ≠ 0 ∧
    dupRouterCfg.channelsOut ≠ 0 ∧
    (∃ r, mal_channel_router_init dupRouterCfg = .ok r) :=
  ⟨by decide, by decide, by decide,
    c9_router_init_accepts_duplicates dupRouterCfg (by decide) (by decide) (by decide)
      (by decide) (by decide)⟩

/-! ### Claim C10 -/

/-- C10: the sinc table lookup can run one past the end of the table.  With
the default window width 32 and a resampling factor of 15/8 (60000 → 32000 is
exactly 1.875 in binary32), the second output frame of a read has
timeIn = 15/8, so the tap at iWindow = 1 - tap distance w = -31, inside the
claimed range [-windowWidth, windowWidth-1] - has lookup argument
x = 0.875 + 31 = 255/8, giving ixabs = 255; the interpolation then reads
table[ixabs + 1] = table[256], which is not strictly less than the 256-entry
table length, contradicting the claim. -/
theorem c10_sinc_table_overflow :
    (60000 : ℚ) / 32000 = 15 / 8 ∧
    mal_src_sinc__interpolation_factor_ixabs
        (mal_src_sinc_tap_argument (15 / 8) MAL_SRC_SINC_DEFAULT_WINDOW_WIDTH 1) = 255 ∧
    ¬(mal_src_sinc__interpolation_factor_ixabs
        (mal_src_sinc_tap_argument (15 / 8) MAL_SRC_SINC_DEFAULT_WINDOW_WIDTH 1) + 1 <
      mal_src_sinc_table_count) := by
  have hfloor : ⌊(15 : ℚ) / 8⌋ = 1 := by
    rw [Int.floor_eq_iff]
    norm_num
  have harg : mal_src_sinc_tap_argument (15 / 8) MAL_SRC_SINC_DEFAULT_WINDOW_WIDTH 1 =
      255 / 8 := by
    unfold mal_src_sinc_tap_argument MAL_SRC_SINC_DEFAULT_WINDOW_WIDTH
    rw [hfloor]
    norm_num
  have hix : mal_src_sinc__interpolation_factor_ixabs (255 / 8) = 255 := by
    unfold mal_src_sinc__interpolation_factor_ixabs MAL_SRC_SINC_LOOKUP_TABLE_RESOLUTION
    rw [show |(255 : ℚ) / 8| = 255 / 8 from abs_of_pos (by norm_num)]
    rw [show (255 : ℚ) / 8 * ((8 : ℕ) : ℚ) = ((255 : ℕ) : ℚ) by push_cast; ring]
    rw [Int.floor_natCast]
    rfl
  refine ⟨by norm_num, ?_, ?_⟩
  · rw [harg, hix]
  · rw [harg, hix]
    unfold mal_src_sinc_table_count MAL_SRC_SINC_MAX_WINDOW_WIDTH
      MAL_SRC_SINC_LOOKUP_TABLE_RESOLUTION
    omega

/-! ### Claim C4: linear SRC helper lemmas -/

theorem linearIter_first (remaining : Nat) (h4 : 4 ≤ remaining) :
    ∀ res, res = linearIter linearCfg48to24 rampSource8 remaining mal_src_linear_state_zero 0 →
      res.produced = 3 ∧ res.chunk 0 = [0, 2, 4] ∧ res.breaks = true ∧ res.st.timeIn = 0 ∧
      res.st.leftoverFrames = 2 ∧ res.st.input 0 0 = 6 ∧ res.st.input 0 1 = 7 ∧
      res.srcState = 8 := by
  intro res hres
  unfold linearIter at hres
  lift_lets at hres
  extract_lets factor framesToRead tBeg tEnd c0 K step s2 cache frc at hres
  have hfactor : factor = 2 := by
    unfold factor
    simp only [linearCfg48to24]
    norm_num
  have hftr4 : 4 ≤ framesToRead := by unfold framesToRead; omega
  have htBeg : tBeg = 0 := by unfold tBeg; rfl
  have htEnd : tEnd = ((2 * framesToRead : ℕ) : ℚ) := by
    unfold tEnd
    rw [hfactor, htBeg]
    push_cast
    ring
  have hc0 : c0 = 2 * framesToRead + 2 := by
    unfold c0
    rw [htEnd, Int.floor_natCast]
    omega
  have hK : 8 < K ∧ K ≤ 256 := by
    unfold K
    rw [hc0]
    simp only [MAL_SRC_INPUT_BUFFER_SIZE_IN_SAMPLES]
    split_ifs <;> omega
  obtain ⟨hK1, hK2⟩ := hK
  have hlt : mal_src_linear_state_zero.leftoverFrames < K := by
    simp only [mal_src_linear_state_zero]
    omega
  have hstep : step = rampSource8 0 (K - mal_src_linear_state_zero.leftoverFrames) := by
    unfold step
    rw [if_pos hlt]
  have hs1 : step.1 = 8 := by
    rw [hstep]
    show 0 + min (K - mal_src_linear_state_zero.leftoverFrames) (8 - 0) = 8
    simp only [mal_src_linear_state_zero]
    omega
  have hs21 : step.2.1 = 8 := by
    rw [hstep]
    show min (K - mal_src_linear_state_zero.leftoverFrames) (8 - 0) = 8
    simp only [mal_src_linear_state_zero]
    omega
  have hdata : ∀ c i, step.2.2 c i = (i : ℚ) := by
    intro c i
    rw [hstep]
    show ((0 + i : Nat) : ℚ) = (i : ℚ)
    norm_num
  have hfrc : frc = 8 := by
    unfold frc
    rw [hs21]
    simp [mal_src_linear_state_zero]
  have hcache : ∀ c i, i < 8 → cache c i = (i : ℚ) := by
    intro c i hi
    unfold cache
    simp only [mal_src_linear_state_zero, hs21, hdata, Nat.zero_le, true_and, Nat.zero_add,
      Nat.sub_zero]
    rw [if_pos hi]
  rw [hfrc] at hres
  extract_lets tAvailable maxOut0 maxOut1 mofr chunk tNext iNextFrame leftover2 timeIn2
    cache2 at hres
  rw [if_neg (show ¬(8 : ℕ) < 2 by omega)] at hres
  have htav : tAvailable = 7 := by
    unfold tAvailable
    rw [htBeg]
    norm_num
  have hmo0 : maxOut0 = 3 := by
    unfold maxOut0
    rw [htav, hfactor]
    rw [show ⌊(7 : ℚ) / 2⌋ = 3 from by rw [Int.floor_eq_iff]; norm_num]
    rfl
  have hmo1 : maxOut1 = 3 := by
    unfold maxOut1
    rw [hmo0]
    norm_num
  have hmofr : mofr = 3 := by
    unfold mofr
    rw [hmo1, if_neg (by omega)]
  have hchunk : chunk 0 = [0, 2, 4] := by
    unfold chunk
    rw [hmofr, hfactor]
    have e0 : cache 0 0 = 0 := by rw [hcache 0 0 (by omega)]; norm_num
    have e1 : cache 0 1 = 1 := by rw [hcache 0 1 (by omega)]; norm_num
    have e2 : cache 0 2 = 2 := by rw [hcache 0 2 (by omega)]; norm_num
    have e3 : cache 0 3 = 3 := by rw [hcache 0 3 (by omega)]; norm_num
    have e4 : cache 0 4 = 4 := by rw [hcache 0 4 (by omega)]; norm_num
    have e5 : cache 0 5 = 5 := by rw [hcache 0 5 (by omega)]; norm_num
    norm_num [linearCfg48to24, mal_src_linear_state_zero, linearSamples, mal_mix_f32_fast,
      Int.toNat_ofNat, e0, e1, e2, e3, e4, e5]
    exact ⟨by rw [show Int.toNat 2 = 2 from rfl]; exact e2,
      by rw [show Int.toNat 4 = 4 from rfl]; exact e4⟩
  have htNext : tNext = 6 := by
    unfold tNext
    rw [hmofr, hfactor]
    simp only [mal_src_linear_state_zero]
    norm_num
  have hiNext : iNextFrame = 6 := by
    unfold iNextFrame
    rw [htNext]
    rw [show ⌊(6 : ℚ)⌋ = 6 from by norm_num]
    rfl
  have hleft2 : leftover2 = 2 := by
    unfold leftover2
    rw [hiNext]
  have htime2 : timeIn2 = 0 := by
    unfold timeIn2
    rw [htNext, hiNext]
    norm_num
  have hcache2a : cache2 0 0 = 6 := by
    unfold cache2
    rw [hleft2]
    rw [if_pos (show (0 : ℕ) < 2 by omega)]
    rw [show (8 : ℕ) - 2 + 0 = 6 from rfl]
    rw [hcache 0 6 (by omega)]
    norm_num
  have hcache2b : cache2 0 1 = 7 := by
    unfold cache2
    rw [hleft2]
    rw [if_pos (show (1 : ℕ) < 2 by omega)]
    rw [show (8 : ℕ) - 2 + 1 = 7 from rfl]
    rw [hcache 0 7 (by omega)]
    norm_num
  have hs2v : s2 = 8 := by
    unfold s2
    exact hs1
  rw [hres]
  exact ⟨hmofr, hchunk, decide_eq_true hK1, htime2, hleft2, hcache2a, hcache2b, hs2v⟩

theorem linearIter_second (remaining : Nat) (h1 : 1 ≤ remaining)
    (st : mal_src_linear_state) (ht : st.timeIn = 0) (hl : st.leftoverFrames = 2)
    (h60 : st.input 0 0 = 6) (h71 : st.input 0 1 = 7) :
    ∀ res, res = linearIter linearCfg48to24 rampSource8 remaining st 8 →
      res.produced = 1 ∧ res.chunk 0 = [6] ∧ res.breaks = true := by
  intro res hres
  unfold linearIter at hres
  lift_lets at hres
  extract_lets factor framesToRead tBeg tEnd c0 K step s2 cache frc at hres
  have hfactor : factor = 2 := by
    unfold factor
    simp only [linearCfg48to24]
    norm_num
  have hftr1 : 1 ≤ framesToRead := by unfold framesToRead; omega
  have htBeg : tBeg = 0 := by unfold tBeg; exact ht
  have htEnd : tEnd = ((2 * framesToRead : ℕ) : ℚ) := by
    unfold tEnd
    rw [hfactor, htBeg]
    push_cast
    ring
  have hc0 : c0 = 2 * framesToRead + 2 := by
    unfold c0
    rw [htEnd, Int.floor_natCast]
    omega
  have hK : 4 ≤ K ∧ K ≤ 256 := by
    unfold K
    rw [hc0]
    simp only [MAL_SRC_INPUT_BUFFER_SIZE_IN_SAMPLES]
    split_ifs <;> omega
  obtain ⟨hK1, hK2⟩ := hK
  have hlt : st.leftoverFrames < K := by
    rw [hl]
    omega
  have hstep : step = rampSource8 8 (K - st.leftoverFrames) := by
    unfold step
    rw [if_pos hlt]
  have hs21 : step.2.1 = 0 := by
    rw [hstep]
    show min (K - st.leftoverFrames) (8 - 8) = 0
    omega
  have hfrc : frc = 2 := by
    unfold frc
    rw [hs21, hl]
  have hcache : ∀ c i, cache c i = st.input c i := by
    intro c i
    unfold cache
    rw [hs21, hl]
    rw [if_neg (by omega)]
  rw [hfrc] at hres
  extract_lets tAvailable maxOut0 maxOut1 mofr chunk tNext iNextFrame leftover2 timeIn2
    cache2 at hres
  rw [if_neg (show ¬(2 : ℕ) < 2 by omega)] at hres
  have htav : tAvailable = 1 := by
    unfold tAvailable
    rw [htBeg]
    norm_num
  have hmo0 : maxOut0 = 0 := by
    unfold maxOut0
    rw [htav, hfactor]
    rw [show ⌊(1 : ℚ) / 2⌋ = 0 from by rw [Int.floor_eq_iff]; norm_num]
    rfl
  have hmo1 : maxOut1 = 1 := by
    unfold maxOut1
    rw [hmo0]
    norm_num
  have hmofr : mofr = 1 := by
    unfold mofr
    rw [hmo1, if_neg (by omega)]
  have hchunk : chunk 0 = [6] := by
    unfold chunk
    rw [hmofr, hfactor, ht]
    have e0 : cache 0 0 = 6 := by rw [hcache]; exact h60
    have e1 : cache 0 1 = 7 := by rw [hcache]; exact h71
    norm_num [linearCfg48to24, linearSamples, mal_mix_f32_fast, e0, e1]
  rw [hres]
  exact ⟨hmofr, hchunk, decide_eq_true (show (2 : ℕ) < K by omega)⟩

theorem linear_read_first (fc : Nat) (h4 : 4 ≤ fc) :
    ∀ r, r = mal_src_read_deinterleaved__linear linearCfg48to24 mal_src_linear_state_zero
        rampSource8 0 fc →
      r.1 = 3 ∧ r.2.1 0 = [0, 2, 4] ∧ r.2.2.1.timeIn = 0 ∧ r.2.2.1.leftoverFrames = 2 ∧
      r.2.2.1.input 0 0 = 6 ∧ r.2.2.1.input 0 1 = 7 ∧ r.2.2.2 = 8 := by
  intro r hr
  obtain ⟨k, rfl⟩ : ∃ k, fc = k + 4 := ⟨fc - 4, by omega⟩
  unfold mal_src_read_deinterleaved__linear at hr
  rw [show k + 4 = (k + 3) + 1 from rfl] at hr
  rw [linearLoop] at hr
  rw [if_neg (by omega)] at hr
  lift_lets at hr
  extract_lets r2 out2 at hr
  obtain ⟨hp, hc, hb, ht, hl, h6, h7, hs⟩ :=
    linearIter_first ((k + 3) + 1) (by omega) r2
      (by unfold r2; rw [Nat.sub_zero])
  rw [hb] at hr
  rw [if_pos rfl] at hr
  rw [hr]
  refine ⟨?_, ?_, ht, hl, h6, h7, hs⟩
  · show 0 + r2.produced = 3
    rw [hp]
  · show out2 0 = [0, 2, 4]
    unfold out2
    rw [hc]
    rfl

theorem linear_read_second (fc : Nat) (h1 : 1 ≤ fc) (st : mal_src_linear_state)
    (ht : st.timeIn = 0) (hl : st.leftoverFrames = 2) (h60 : st.input 0 0 = 6)
    (h71 : st.input 0 1 = 7) :
    ∀ r, r = mal_src_read_deinterleaved__linear linearCfg48to24 st rampSource8 8 fc →
      r.1 = 1 ∧ r.2.1 0 = [6] := by
  intro r hr
  obtain ⟨k, rfl⟩ : ∃ k, fc = k + 1 := ⟨fc - 1, by omega⟩
  unfold mal_src_read_deinterleaved__linear at hr
  rw [linearLoop] at hr
  rw [if_neg (by omega)] at hr
  lift_lets at hr
  extract_lets r2 out2 at hr
  obtain ⟨hp, hc, hb⟩ :=
    linearIter_second (k + 1) (by omega) st ht hl h60 h71 r2
      (by unfold r2; rw [Nat.sub_zero])
  rw [hb] at hr
  rw [if_pos rfl] at hr
  rw [hr]
  refine ⟨?_, ?_⟩
  · show 0 + r2.produced = 1
    rw [hp]
  · show out2 0 = [6]
    unfold out2
    rw [hc]
    rfl

/-- C4 counterexample: for the 48000 → 24000 mono linear SRC on the 8-sample
ramp source, a single read requesting 4 frames returns 3 frames, [0, 2, 4] -
not the claimed 4 frames [0, 2, 4, 6].  (tAvailable = 8 - 0 - 1 leaves
⌊7/2⌋ = 3 producible frames: the last cached sample is held back as the
interpolant.) -/
theorem c4_counterexample :
    (mal_src_read_deinterleaved__linear linearCfg48to24 mal_src_linear_state_zero
        rampSource8 0 4).1 = 3 ∧
    (mal_src_read_deinterleaved__linear linearCfg48to24 mal_src_linear_state_zero
        rampSource8 0 4).2.1 0 = [0, 2, 4] ∧
    (3 : Nat) ≠ 4 := by
  obtain ⟨hp, hc, _⟩ := linear_read_first 4 (by omega) _ rfl
  exact ⟨hp, hc, by omega⟩

/-- C4 (amended): for the 48000 → 24000 mono linear SRC with fresh state and
the 8-sample ramp source [0..7], a single read requesting at least 4 frames
returns exactly 3 frames with values [0, 2, 4] (the last cached sample is
withheld as the linear interpolant); a subsequent read of any positive frame
count returns the remaining frame [6], for 4 output frames in total.  All
float values involved are exactly representable, so the rational model is
exact. -/
theorem c4_linear_src_48_to_24 (fc1 fc2 : Nat) (h1 : 4 ≤ fc1) (h2 : 1 ≤ fc2) :
    (mal_src_read_deinterleaved__linear linearCfg48to24 mal_src_linear_state_zero
        rampSource8 0 fc1).1 = 3 ∧
    (mal_src_read_deinterleaved__linear linearCfg48to24 mal_src_linear_state_zero
        rampSource8 0 fc1).2.1 0 = [0, 2, 4] ∧
    (mal_src_read_deinterleaved__linear linearCfg48to24
        (mal_src_read_deinterleaved__linear linearCfg48to24 mal_src_linear_state_zero
          rampSource8 0 fc1).2.2.1 rampSource8
        (mal_src_read_deinterleaved__linear linearCfg48to24 mal_src_linear_state_zero
          rampSource8 0 fc1).2.2.2 fc2).1 = 1 ∧
    (mal_src_read_deinterleaved__linear linearCfg48to24
        (mal_src_read_deinterleaved__linear linearCfg48to24 mal_src_linear_state_zero
          rampSource8 0 fc1).2.2.1 rampSource8
        (mal_src_read_deinterleaved__linear linearCfg48to24 mal_src_linear_state_zero
          rampSource8 0 fc1).2.2.2 fc2).2.1 0 = [6] := by
  obtain ⟨hp, hc, ht, hl, h6, h7, hs⟩ := linear_read_first fc1 h1 _ rfl
  have h2nd := linear_read_second fc2 h2 _ ht hl h6 h7 _ rfl
  refine ⟨hp, hc, ?_, ?_⟩
  · rw [hs]
    exact h2nd.1
  · rw [hs]
    exact h2nd.2

/-- C4 witness: the amended statement at the concrete frame counts 4 and 1. -/
theorem c4_linear_src_48_to_24_witness :
    (4 : Nat) ≤ 4 ∧ (1 : Nat) ≤ 1 ∧
    ((mal_src_read_deinterleaved__linear linearCfg48to24 mal_src_linear_state_zero
        rampSource8 0 4).1 = 3 ∧
      (mal_src_read_deinterleaved__linear linearCfg48to24 mal_src_linear_state_zero
        rampSource8 0 4).2.1 0 = [0, 2, 4] ∧
      (mal_src_read_deinterleaved__linear linearCfg48to24
        (mal_src_read_deinterleaved__linear linearCfg48to24 mal_src_linear_state_zero
          rampSource8 0 4).2.2.1 rampSource8
        (mal_src_read_deinterleaved__linear linearCfg48to24 mal_src_linear_state_zero
          rampSource8 0 4).2.2.2 1).1 = 1 ∧
      (mal_src_read_deinterleaved__linear linearCfg48to24
        (mal_src_read_deinterleaved__linear linearCfg48to24 mal_src_linear_state_zero
          rampSource8 0 4).2.2.1 rampSource8
        (mal_src_read_deinterleaved__linear linearCfg48to24 mal_src_linear_state_zero
          rampSource8 0 4).2.2.2 1).2.1 0 = [6]) :=
  ⟨by omega, by omega, c4_linear_src_48_to_24 4 1 (by omega) (by omega)⟩

/-! ### Claim C3 -/

/-- For a passthrough router and a frame count of at most 0xFFFFFFFF, the read
returns exactly what the source callback delivers, written unchanged at the
start of the output buffers (mini_al.h:12029-12030) - the behavior the claim
describes, and the evident intent for every frame count. -/
theorem router_passthrough_identity_small {σ : Type} (r : mal_channel_router)
    (hp : r.isPassthrough = true) (fc : Nat) (hfc : fc ≤ 0xFFFFFFFF)
    (src : ReadDeinterleavedSource σ) (s0 : σ) (buf0 : Nat → Nat → ℚ) :
    (mal_channel_router_read_deinterleaved r fc src s0 buf0).1 = (src s0 fc).2.1 ∧
    (∀ c < r.config.channelsOut, ∀ i < (src s0 fc).2.1,
      (mal_channel_router_read_deinterleaved r fc src s0 buf0).2.2 c i =
        (src s0 fc).2.2 c i) := by
  unfold mal_channel_router_read_deinterleaved
  rw [if_pos ⟨hp, hfc⟩]
  refine ⟨rfl, ?_⟩
  intro c hc i hi
  show (if c < r.config.channelsOut ∧ i < (src s0 fc).2.1 then (src s0 fc).2.2 c i
    else buf0 c i) = (src s0 fc).2.2 c i
  rw [if_pos ⟨hc, hi⟩]

/-- Witness for the passthrough identity: the MONO identity router reading one
frame from the one-frame source returns that frame unchanged. -/
theorem router_passthrough_identity_small_witness :
    routerMono.isPassthrough = true ∧ (1 : Nat) ≤ 0xFFFFFFFF ∧
    ((mal_channel_router_read_deinterleaved routerMono 1 oneFrameSource 0
        (fun _ _ => 0)).1 = (oneFrameSource 0 1).2.1 ∧
      (∀ c < routerMono.config.channelsOut, ∀ i < (oneFrameSource 0 1).2.1,
        (mal_channel_router_read_deinterleaved routerMono 1 oneFrameSource 0
          (fun _ _ => 0)).2.2 c i = (oneFrameSource 0 1).2.2 c i)) :=
  ⟨by decide, by decide,
    router_passthrough_identity_small routerMono (by decide) 1 (by decide)
      oneFrameSource 0 (fun _ _ => 0)⟩

/-- C3: the identity router loses frames once the frame count exceeds
0xFFFFFFFF.  With the 1-channel MONO → MONO simple-mixing router (a
passthrough) and a source that delivers one frame of value 5 and then reports
end of input, a read of 2^32 = 4294967296 frames returns 0 even though the
source delivered its frame (final source state = 1) and the frame was written
to the output buffer (out[0][0] = 5): the passthrough while loop at
mini_al.h:12036-12056 computes totalFramesRead = 1 and then discards it -
there is no return statement after the loop - so control falls through into
the path commented "Slower path for a non-passthrough", which finds the
source exhausted and returns 0. -/
theorem c3_router_passthrough_falls_through :
    (mal_channel_router_read_deinterleaved routerMono 4294967296 oneFrameSource 0
        (fun _ _ => 0)).1 = 0 ∧
    (mal_channel_router_read_deinterleaved routerMono 4294967296 oneFrameSource 0
        (fun _ _ => 0)).2.1 = 1 ∧
    (mal_channel_router_read_deinterleaved routerMono 4294967296 oneFrameSource 0
        (fun _ _ => 0)).2.2 0 0 = 5 :=
  ⟨by decide, by decide, rfl⟩
